import Mathlib

/-!
Shallow embedding of the compression pipeline of `src/app.py` (the
`/api/compress` route of the LoveYourPDF Flask backend), together with
theorems checking the natural-language specification against it.

The external libraries (pikepdf open/save, PIL image decode, JPEG
encode) are modelled as oracle functions bundled in a `Libs` record;
the orchestration logic — request validation, quality resolution, the
per-image loop with its swallow-all error handling, the inline PIL
normalisation snippet (`app.py` lines 137-141), metrics computation and
error-message formatting — is translated directly from the source.
-/

namespace LoveYourPdf

/-- Raw byte strings, modelled as lists of naturals. -/
abbrev Bytes := List Nat

/-- A PDF image XObject as manipulated by the compress loop: its stored
stream bytes, `/Filter`, optional `/DecodeParms`, `/ColorSpace` and
`/Subtype` entries, plus all remaining dictionary entries (width,
height, ...) which the loop never touches. -/
structure XObject where
  subtype : String
  streamData : Bytes
  filter : String
  decodeParms : Option String
  colorSpace : String
  otherKeys : List (String × String)
deriving DecidableEq, Repr

/-- A page: its `/Resources` `/XObject` mapping (an ordered association
list, as pikepdf preserves key order) plus the rest of the page
(content streams, other resources), which the loop never touches. -/
structure Page where
  xobjects : List (String × XObject)
  contents : String
deriving DecidableEq, Repr

/-- An opened document: an ordered sequence of pages. -/
structure Document where
  pages : List Page
deriving DecidableEq, Repr

/-! PIL image model.  Decoded images are pixel rasters in a named mode;
each pixel is the list of its channel values.  The modes exercised by
the theorems are grayscale `L` (1 band, no alpha), `RGB` (3 bands, no
alpha) and `RGBA` (4 bands, last band is alpha). -/

/-- A decoded PIL image: colour mode plus a flat list of pixels, each a
list of channel values in 0..255. -/
structure PILImage where
  mode : String
  pixels : List (List Nat)
deriving DecidableEq, Repr

/-- Number of channel bands of a PIL mode (1 for `L`, 3 for `RGB`,
4 for `RGBA`). -/
def bandCount (mode : String) : Nat :=
  if mode = "L" then 1 else if mode = "RGB" then 3
  else if mode = "RGBA" then 4 else 1

/-- Modes that carry a transparency (alpha) channel. -/
def modeHasAlpha (mode : String) : Bool :=
  mode = "RGBA" || mode = "LA"

/-- The `i`-th single-channel band of an image, as PIL `Image.split`
produces it: a grayscale (`L` mode) image of that channel. -/
def band (img : PILImage) (i : Nat) : PILImage :=
  { mode := "L", pixels := img.pixels.map (fun p => [p.getD i 0]) }

/-- PIL `Image.split`: the list of single-channel bands. -/
def splitBands (img : PILImage) : List PILImage :=
  (List.range (bandCount img.mode)).map (band img)

/-- PIL `Image.convert("RGB")`: grayscale is replicated across the three
channels, RGBA drops its alpha channel (no compositing), RGB is kept. -/
def convertRGB (img : PILImage) : PILImage :=
  if img.mode = "RGB" then img
  else if img.mode = "L" then
    { mode := "RGB"
      pixels := img.pixels.map (fun p => match p with
        | [l] => [l, l, l]
        | _ => [0, 0, 0]) }
  else if img.mode = "RGBA" then
    { mode := "RGB"
      pixels := img.pixels.map (fun p => match p with
        | [r, g, b, _] => [r, g, b]
        | _ => [0, 0, 0]) }
  else { mode := "RGB", pixels := img.pixels.map (fun _ => [0, 0, 0]) }

/-- PIL's fixed-point approximation of `a * b / 255` used when blending
with a mask (`MULDIV255` in the Pillow sources). -/
def mulDiv255 (a b : Nat) : Nat :=
  let t := a * b + 128
  (t / 256 + t) / 256

/-- Blend one channel of background and foreground under mask value
`m` (0 keeps the background, 255 takes the foreground). -/
def blendChannel (m bgc fgc : Nat) : Nat :=
  mulDiv255 bgc (255 - m) + mulDiv255 fgc m

/-- Blend one background pixel with one foreground pixel under mask
value `m`. -/
def pastePix (m : Nat) (bgp fgp : List Nat) : List Nat :=
  (bgp.zip fgp).map (fun c => blendChannel m c.1 c.2)

/-- PIL `bg.paste(fg, mask=mask)`: fails (raises `ValueError`) unless
the mask mode is one of `1`, `L`, `LA`, `RGBA`; otherwise the pasted
image is first converted to the background's mode and then blended
pixelwise under the mask band. -/
def pasteMask (bg fg mask : PILImage) : Option PILImage :=
  if mask.mode = "1" ∨ mask.mode = "L" ∨ mask.mode = "LA" ∨ mask.mode = "RGBA" then
    some { mode := bg.mode
           pixels := (bg.pixels.zip ((convertRGB fg).pixels.zip mask.pixels)).map
             (fun t => pastePix (t.2.2.getD 0 0) t.1 t.2.1) }
  else none

/-- PIL `Image.new("RGB", size, (255,255,255))`: an opaque white RGB
image with the given pixel count. -/
def whiteRGB (n : Nat) : PILImage :=
  { mode := "RGB", pixels := List.replicate n [255, 255, 255] }

/-- The inline normalisation snippet of `app.py` lines 137-141:

    if img.mode != 'RGB':
        bg = Image.new('RGB', img.size, (255,255,255))
        try: bg.paste(img, mask=img.split()[-1])
        except: bg = img.convert('RGB')
        img = bg

A non-RGB image is pasted onto a white background using its LAST band
as the mask; if the paste (or the split) raises, the image is instead
converted directly to RGB. -/
def normalize (img : PILImage) : PILImage :=
  if img.mode = "RGB" then img
  else
    match (splitBands img).getLast? with
    | none => convertRGB img
    | some mask =>
      match pasteMask (whiteRGB img.pixels.length) img mask with
      | some bg => bg
      | none => convertRGB img

/-! Quality resolution, `app.py` lines 111-119. -/

/-- Accumulate a decimal digit string; `none` if empty or any non-digit
appears (a model of the digit part of Python `int(str)`). -/
def digitsToNat (cs : List Char) : Option Nat :=
  if cs.isEmpty then none
  else cs.foldl
    (fun acc c => acc.bind
      (fun n => if c.isDigit then some (n * 10 + (c.toNat - 48)) else none))
    (some 0)

/-- Strip leading and trailing whitespace from a character list. -/
def stripWS (cs : List Char) : List Char :=
  ((cs.dropWhile Char.isWhitespace).reverse.dropWhile Char.isWhitespace).reverse

/-- Model of Python `int(s)` on strings: surrounding whitespace is
ignored, an optional sign precedes a nonempty run of decimal digits;
anything else raises `ValueError` (here: `none`). -/
def pyInt (s : String) : Option Int :=
  match stripWS s.data with
  | '+' :: rest => (digitsToNat rest).map (fun n => (n : Int))
  | '-' :: rest => (digitsToNat rest).map (fun n => -(n : Int))
  | rest => (digitsToNat rest).map (fun n => (n : Int))

/-- The preset table `{'low': 75, 'medium': 50, 'high': 20}` looked up
with default 50 (`quality_map.get(level, 50)`). -/
def qualityPreset (level : String) : Int :=
  if level = "low" then 75 else if level = "medium" then 50
  else if level = "high" then 20 else 50

/-- Quality resolution, `app.py` lines 111-119: `level` defaults to
`"medium"`; `int(request.form.get('quality', 0))` is attempted (a
missing field yields the integer 0), the value is kept only when it
lies in `[10, 90]`, and any parse failure or out-of-range value falls
back to the preset table. -/
def resolveQuality (qualityField levelField : Option String) : Int :=
  let level := levelField.getD "medium"
  let parsed : Option Int :=
    match qualityField with
    | none => some 0
    | some s => pyInt s
  match parsed with
  | some q => if 10 ≤ q ∧ q ≤ 90 then q else qualityPreset level
  | none => qualityPreset level

/-! Size metrics, `app.py` line 159. -/

/-- Round-half-even on rationals, the rounding rule of Python's
built-in `round`. -/
def rhe (q : ℚ) : ℤ :=
  let f := q.floor
  if q - f < 1 / 2 then f
  else if (1 : ℚ) / 2 < q - f then f + 1
  else if f % 2 = 0 then f else f + 1

/-- Python `round(x, 1)`: round to one decimal place, half to even. -/
def pyRound1 (x : ℚ) : ℚ := (rhe (x * 10) : ℚ) / 10

/-- The saved percentage in tenths of a percent, as an integer. -/
def tenths (orig new : Nat) : ℤ :=
  rhe ((1 - (new : ℚ) / (orig : ℚ)) * 100 * 10)

/-- `saved = round((1 - new_size/original_size)*100, 1) if original_size else 0`
(`app.py` line 159), as an exact rational. -/
def savedPercentQ (orig new : Nat) : ℚ :=
  if orig = 0 then 0 else (tenths orig new : ℚ) / 10

/-- Decimal rendering of a tenths value, matching Python `str` on a
one-decimal float (for example `-12.5`, `0.0`, `36.1`). -/
def renderTenths (n : ℤ) : String :=
  (if n < 0 then "-" else "") ++ toString (n.natAbs / 10) ++ "." ++ toString (n.natAbs % 10)

/-- `str(saved)` as placed in the `X-Saved-Percent` header: the plain
integer `0` when the original size is 0 (the Python value is the int
literal `0`), the one-decimal float rendering otherwise. -/
def renderSaved (orig new : Nat) : String :=
  if orig = 0 then "0" else renderTenths (tenths orig new)

/-- Python `str(e)[:100]`: the first 100 characters. -/
def trunc100 (s : String) : String := String.mk (s.data.take 100)

/-! The external libraries, as oracles.  Fallible calls carry their
exception text in the error case. -/

/-- The two external libraries used by the compress route: pikepdf
(`parse` = `pikepdf.open`, `save` = `pdf.save` with the fixed options
of `app.py` lines 152-155) and PIL (`decode` = `Image.open` on the raw
stream bytes, `encode` = `img.save(..., 'JPEG', quality=q,
optimize=True)`). -/
structure Libs where
  parse : Bytes → Except String Document
  decode : Bytes → Except String PILImage
  encode : PILImage → Int → Except String Bytes
  save : Document → Except String Bytes

/-- The body of the inner `try` of `app.py` lines 135-147 as one
fallible step: decode the stored bytes, normalise, re-encode as JPEG
at the resolved quality, and build the substituted XObject (new bytes,
`/DCTDecode` filter, no `/DecodeParms`, `/DeviceRGB` colour space). -/
def tryRecodeImage (L : Libs) (quality : Int) (x : XObject) : Except String XObject :=
  match L.decode x.streamData with
  | .error e => .error e
  | .ok img =>
    match L.encode (normalize img) quality with
    | .error e => .error e
    | .ok newBytes =>
      .ok { x with streamData := newBytes
                   filter := "/DCTDecode"
                   decodeParms := none
                   colorSpace := "/DeviceRGB" }

/-- Processing of one XObject, `app.py` lines 133-148: non-images are
untouched; for an image the recode attempt is made and any failure in
it is swallowed (`except: pass`), leaving the XObject as it was. -/
def processXObject (L : Libs) (quality : Int) (x : XObject) : XObject :=
  if x.subtype = "/Image" then
    match tryRecodeImage L quality x with
    | .error _ => x
    | .ok y => y
  else x

/-- Processing of one page, `app.py` lines 130-149: every value of the
`/XObject` mapping is processed in place; keys, their order, and the
rest of the page are untouched. -/
def processPage (L : Libs) (quality : Int) (p : Page) : Page :=
  { p with xobjects := p.xobjects.map (fun kv => (kv.1, processXObject L quality kv.2)) }

/-- The per-page loop of `app.py` line 129: every page is processed;
the page sequence itself is untouched. -/
def processDocument (L : Libs) (quality : Int) (doc : Document) : Document :=
  { pages := doc.pages.map (processPage L quality) }

/-- A successful compression response: the payload streamed back by
`send_file` plus the three size metrics and the three response headers
(`app.py` lines 157-166). -/
structure CompressionOk where
  payload : Bytes
  originalSize : Nat
  newSize : Nat
  savedPercent : ℚ
  headerOriginalSize : String
  headerNewSize : String
  headerSavedPercent : String
deriving DecidableEq, Repr

/-- The document pipeline of `app.py` lines 121-168, after validation:
`data = f.read()`, `original_size = len(data)`, then inside one
`try`/`except` block: parse, the per-image loop, save, metrics; any
pikepdf exception (from parse or save) is reported as
`'Compression failed: ' + str(e)[:100]`. -/
def compressCore (L : Libs) (data : Bytes) (quality : Int) : Except String CompressionOk :=
  match L.parse data with
  | .error e => .error ("Compression failed: " ++ trunc100 e)
  | .ok pdf =>
    match L.save (processDocument L quality pdf) with
    | .error e => .error ("Compression failed: " ++ trunc100 e)
    | .ok compressed =>
      .ok { payload := compressed
            originalSize := data.length
            newSize := compressed.length
            savedPercent := savedPercentQ data.length compressed.length
            headerOriginalSize := toString data.length
            headerNewSize := toString compressed.length
            headerSavedPercent := renderSaved data.length compressed.length }

/-! Request validation and the full route, `app.py` lines 104-168. -/

/-- An uploaded file: its client-supplied filename and its content
bytes. -/
structure UploadedFile where
  filename : String
  content : Bytes
deriving DecidableEq, Repr

/-- Maximum size of a single uploaded file, in megabytes. -/
def MAX_FILE_MB : Nat := 25

/-- `is_pdf` (`app.py` line 22): the lowercased filename ends in
`.pdf`; only the filename is inspected, never the content.  Lowercasing
and the suffix test are taken at the character-list level. -/
def is_pdf (f : UploadedFile) : Bool :=
  ".pdf".data.isSuffixOf (f.filename.data.map Char.toLower)

/-- `file_too_big` (`app.py` line 28): seek to the end, compare the
byte count against 25 MB. -/
def file_too_big (f : UploadedFile) : Bool :=
  decide (f.content.length > MAX_FILE_MB * 1024 * 1024)

/-- A route outcome: either an error JSON (`err(msg)`) or a successful
file response with headers. -/
inductive RouteResult where
  | error (msg : String)
  | ok (r : CompressionOk)
deriving DecidableEq, Repr

/-- The `/api/compress` handler, `app.py` lines 104-168.  In source
order: missing file (a Flask `FileStorage` is falsy exactly when its
filename is empty), filename check, size check, quality resolution,
then the document pipeline. -/
def compressRoute (L : Libs) (file : Option UploadedFile)
    (qualityField levelField : Option String) : RouteResult :=
  match file with
  | none => .error "No file uploaded"
  | some f =>
    if f.filename = "" then .error "No file uploaded"
    else if !is_pdf f then .error "Only PDF files allowed"
    else if file_too_big f then
      .error ("File must be under " ++ toString MAX_FILE_MB ++ "MB")
    else
      match compressCore L f.content (resolveQuality qualityField levelField) with
      | .error m => .error m
      | .ok r => .ok r

/-! Concrete library instances used by witnesses and counterexamples. -/

/-- A 150-character exception text. -/
def longMsg : String := String.mk (List.replicate 150 'x')

/-- Libraries whose document parser always fails with `longMsg`. -/
def libsParseFail : Libs :=
  { parse := fun _ => .error longMsg
    decode := fun _ => .error "d"
    encode := fun _ _ => .error "e"
    save := fun _ => .ok [] }

/-- Libraries whose serializer always fails with `longMsg`. -/
def libsSaveFail : Libs :=
  { parse := fun _ => .ok { pages := [] }
    decode := fun _ => .error "d"
    encode := fun _ _ => .error "e"
    save := fun _ => .error longMsg }

/-- The error message both `libsParseFail` and `libsSaveFail` produce. -/
def badMsg : String := "Compression failed: " ++ String.mk (List.replicate 100 'x')

/-- Libraries where parsing yields the empty document and saving
yields a fixed three-byte output. -/
def libsOk : Libs :=
  { parse := fun _ => .ok { pages := [] }
    decode := fun _ => .error "d"
    encode := fun _ _ => .error "e"
    save := fun _ => .ok [0, 0, 0] }

/-- Bounds of the preset table: every preset lies in `[10, 90]`. -/
theorem qualityPreset_bounds (l : String) :
    10 ≤ qualityPreset l ∧ qualityPreset l ≤ 90 := by
  unfold qualityPreset
  split_ifs <;> norm_num

/-- C2: the resolved quality is always an integer in `[10, 90]`; a
quality field that parses as an integer in `[10, 90]` is used exactly;
otherwise (missing field, parse failure, or out-of-range value) the
level is mapped low ↦ 75, medium ↦ 50, high ↦ 20, with any
unrecognized or missing level yielding 50; resolution is total. -/
theorem quality_resolution_c2 (qf lf : Option String) :
    (10 ≤ resolveQuality qf lf ∧ resolveQuality qf lf ≤ 90)
    ∧ (∀ s i, qf = some s → pyInt s = some i → 10 ≤ i → i ≤ 90 →
        resolveQuality qf lf = i)
    ∧ (∀ s, qf = some s → pyInt s = none →
        resolveQuality qf lf = qualityPreset (lf.getD "medium"))
    ∧ (∀ s i, qf = some s → pyInt s = some i → ¬(10 ≤ i ∧ i ≤ 90) →
        resolveQuality qf lf = qualityPreset (lf.getD "medium"))
    ∧ (qf = none → resolveQuality qf lf = qualityPreset (lf.getD "medium"))
    ∧ (qualityPreset "low" = 75 ∧ qualityPreset "medium" = 50 ∧ qualityPreset "high" = 20)
    ∧ (∀ l, l ≠ "low" → l ≠ "medium" → l ≠ "high" → qualityPreset l = 50)
    ∧ (lf = none → qualityPreset (lf.getD "medium") = 50) := by
  refine ⟨?_, ?_, ?_, ?_, ?_, ⟨rfl, rfl, rfl⟩, ?_, ?_⟩
  · unfold resolveQuality
    cases qf with
    | none =>
      simp only []
      rw [if_neg (by decide)]
      exact qualityPreset_bounds (lf.getD "medium")
    | some s =>
      cases hps : pyInt s with
      | none => simpa [hps] using qualityPreset_bounds (lf.getD "medium")
      | some i =>
        simp only [hps]
        by_cases hi : 10 ≤ i ∧ i ≤ 90
        · rw [if_pos hi]; exact hi
        · rw [if_neg hi]; exact qualityPreset_bounds (lf.getD "medium")
  · intro s i hqf hps h1 h2
    subst hqf
    unfold resolveQuality
    simp only [hps]
    exact if_pos ⟨h1, h2⟩
  · intro s hqf hps
    subst hqf
    unfold resolveQuality
    simp [hps]
  · intro s i hqf hps hout
    subst hqf
    unfold resolveQuality
    simp only [hps]
    exact if_neg hout
  · intro hqf
    subst hqf
    unfold resolveQuality
    simp only []
    rw [if_neg (by decide)]
  · intro l h1 h2 h3
    unfold qualityPreset
    rw [if_neg (by simpa using h1), if_neg (by simpa using h2), if_neg (by simpa using h3)]
  · intro hlf
    subst hlf
    rfl

/-- Witness for C2 at concrete inputs: quality field `"42"` is used
exactly; a missing field with level `"high"` resolves to 20. -/
theorem quality_resolution_c2_witness :
    resolveQuality (some "42") (some "high") = 42
    ∧ resolveQuality none (some "high") = 20 := by
  constructor
  · exact (quality_resolution_c2 (some "42") (some "high")).2.1 "42" 42 rfl rfl
      (by decide) (by decide)
  · have h := (quality_resolution_c2 none (some "high")).2.2.2.2.1 rfl
    simpa using h

/-- Inversion of a successful run of the document pipeline: the parse
and save oracles both succeeded and the result record is determined by
the input length and saved bytes. -/
theorem compressCore_ok_inv (L : Libs) (data : Bytes) (q : Int) (r : CompressionOk)
    (h : compressCore L data q = .ok r) :
    ∃ doc outB, L.parse data = .ok doc
      ∧ L.save (processDocument L q doc) = .ok outB
      ∧ r = { payload := outB
              originalSize := data.length
              newSize := outB.length
              savedPercent := savedPercentQ data.length outB.length
              headerOriginalSize := toString data.length
              headerNewSize := toString outB.length
              headerSavedPercent := renderSaved data.length outB.length } := by
  unfold compressCore at h
  cases hp : L.parse data with
  | error e =>
    simp only [hp] at h
    exact Except.noConfusion h
  | ok doc =>
    cases hs : L.save (processDocument L q doc) with
    | error e =>
      simp only [hp, hs] at h
      exact Except.noConfusion h
    | ok outB =>
      simp only [hp, hs, Except.ok.injEq] at h
      exact ⟨doc, outB, rfl, hs, h.symm⟩

/-- C3: for every successful result, the saved percentage equals
`round((1 - newSize/originalSize)*100, 1)` computed from the reported
sizes, and equals 0 whenever the reported original size is 0. -/
theorem metrics_c3 (L : Libs) (data : Bytes) (q : Int) (r : CompressionOk)
    (h : compressCore L data q = .ok r) :
    r.savedPercent = savedPercentQ r.originalSize r.newSize
    ∧ (r.originalSize = 0 → r.savedPercent = 0)
    ∧ (r.originalSize ≠ 0 →
        r.savedPercent = pyRound1 ((1 - (r.newSize : ℚ) / (r.originalSize : ℚ)) * 100)) := by
  obtain ⟨doc, outB, hp, hs, rfl⟩ := compressCore_ok_inv L data q r h
  refine ⟨rfl, ?_, ?_⟩
  · intro h0
    have h1 : data.length = 0 := h0
    show savedPercentQ data.length outB.length = 0
    unfold savedPercentQ
    rw [if_pos h1]
  · intro h0
    have h1 : data.length ≠ 0 := h0
    show savedPercentQ data.length outB.length
      = pyRound1 ((1 - (outB.length : ℚ) / (data.length : ℚ)) * 100)
    unfold savedPercentQ pyRound1 tenths
    rw [if_neg h1]

/-- Witness for C3: concrete libraries where parsing yields the empty
document and saving yields three bytes, on a one-byte input. -/
theorem metrics_c3_witness :
    ∃ r, compressCore libsOk [1] 50 = .ok r
      ∧ r.savedPercent = savedPercentQ r.originalSize r.newSize :=
  ⟨_, rfl, (metrics_c3 libsOk [1] 50 _ rfl).1⟩

/-- C5 counterexample: a parse failure with a 150-character exception
text produces the 120-character message
`"Compression failed: " ++ 100 characters`, which exceeds 100
characters; a serialization failure with the same exception text
produces the identical message, so the message does not distinguish
the failing stage. -/
theorem error_message_c5_counterexample :
    compressCore libsParseFail [] 50 = .error badMsg
    ∧ compressCore libsSaveFail [] 50 = .error badMsg
    ∧ badMsg.length = 120 := by
  refine ⟨rfl, rfl, ?_⟩
  decide

/-- C5 (amended): whenever the document pipeline fails, the message is
`"Compression failed: "` followed by the underlying exception text
truncated to at most 100 characters, for a total length of at most
120; parse and serialization failures share this single format. -/
theorem error_message_c5_amended (L : Libs) (data : Bytes) (q : Int) (m : String)
    (h : compressCore L data q = .error m) :
    ∃ e, m = "Compression failed: " ++ trunc100 e ∧ m.length ≤ 120 := by
  have hlen : ∀ e : String, ("Compression failed: " ++ trunc100 e).length ≤ 120 := by
    intro e
    have h1 : (trunc100 e).length ≤ 100 := by
      show (e.data.take 100).length ≤ 100
      exact List.length_take_le 100 e.data
    have h3 : ("Compression failed: ").length = 20 := rfl
    have h2 : ("Compression failed: " ++ trunc100 e).length
        = 20 + (trunc100 e).length := by
      rw [String.length_append, h3]
    omega
  unfold compressCore at h
  cases hp : L.parse data with
  | error e =>
    simp only [hp, Except.error.injEq] at h
    exact ⟨e, h.symm, h ▸ hlen e⟩
  | ok doc =>
    cases hs : L.save (processDocument L q doc) with
    | error e =>
      simp only [hp, hs, Except.error.injEq] at h
      exact ⟨e, h.symm, h ▸ hlen e⟩
    | ok outB =>
      simp only [hp, hs] at h
      exact Except.noConfusion h

/-- Witness for the amended C5 at a concrete parse failure. -/
theorem error_message_c5_amended_witness :
    ∃ e, badMsg = "Compression failed: " ++ trunc100 e ∧ badMsg.length ≤ 120 :=
  error_message_c5_amended libsParseFail [] 50 badMsg rfl

/-- C6: whenever the input bytes fail to parse, the pipeline returns an
error result carrying only the formatted message (no payload exists);
likewise for a serialization failure after a successful parse. -/
theorem parse_failure_c6 (L : Libs) (data : Bytes) (q : Int) :
    (∀ e, L.parse data = .error e →
      compressCore L data q = .error ("Compression failed: " ++ trunc100 e)
      ∧ ∀ r, compressCore L data q ≠ .ok r)
    ∧ (∀ doc e, L.parse data = .ok doc →
        L.save (processDocument L q doc) = .error e →
        compressCore L data q = .error ("Compression failed: " ++ trunc100 e)
        ∧ ∀ r, compressCore L data q ≠ .ok r) := by
  constructor
  · intro e hp
    have heq : compressCore L data q = .error ("Compression failed: " ++ trunc100 e) := by
      unfold compressCore
      simp only [hp]
    exact ⟨heq, fun r hr => Except.noConfusion (heq ▸ hr)⟩
  · intro doc e hp hs
    have heq : compressCore L data q = .error ("Compression failed: " ++ trunc100 e) := by
      unfold compressCore
      simp only [hp, hs]
    exact ⟨heq, fun r hr => Except.noConfusion (heq ▸ hr)⟩

/-- Witness for C6 at a concrete parse failure on arbitrary bytes. -/
theorem parse_failure_c6_witness :
    compressCore libsParseFail [3, 1, 4] 50 = .error badMsg
    ∧ ∀ r, compressCore libsParseFail [3, 1, 4] 50 ≠ .ok r :=
  (parse_failure_c6 libsParseFail [3, 1, 4] 50).1 longMsg rfl

/-- A sample image XObject, as stored before compression. -/
def wImgObj : XObject :=
  { subtype := "/Image"
    streamData := [1, 2]
    filter := "/FlateDecode"
    decodeParms := some "p"
    colorSpace := "/DeviceGray"
    otherKeys := [("W", "8")] }

/-- A sample non-image XObject. -/
def wFormObj : XObject :=
  { subtype := "/Form"
    streamData := [3]
    filter := "/FlateDecode"
    decodeParms := none
    colorSpace := "/DeviceRGB"
    otherKeys := [] }

/-- A one-page sample document holding `wImgObj`. -/
def wPage : Page := { xobjects := [("Im0", wImgObj)], contents := "c" }

/-- The document made of the single page `wPage`. -/
def wDoc : Document := { pages := [wPage] }

/-- Libraries that parse every input to `wDoc`, fail to decode every
image, and serialize every document to the empty byte string. -/
def libsDecodeFail : Libs :=
  { parse := fun _ => .ok wDoc
    decode := fun _ => .error "broken image"
    encode := fun _ _ => .ok [9]
    save := fun _ => .ok [] }

/-- Inversion of a successful recode attempt: it decoded, re-encoded,
and produced the substituted XObject. -/
theorem tryRecodeImage_ok_inv (L : Libs) (q : Int) (x y : XObject)
    (h : tryRecodeImage L q x = .ok y) :
    ∃ img b, L.decode x.streamData = .ok img
      ∧ L.encode (normalize img) q = .ok b
      ∧ y = { x with streamData := b
                     filter := "/DCTDecode"
                     decodeParms := none
                     colorSpace := "/DeviceRGB" } := by
  unfold tryRecodeImage at h
  cases hd : L.decode x.streamData with
  | error e =>
    simp only [hd] at h
    exact Except.noConfusion h
  | ok img =>
    cases he : L.encode (normalize img) q with
    | error e =>
      simp only [hd, he] at h
      exact Except.noConfusion h
    | ok b =>
      simp only [hd, he, Except.ok.injEq] at h
      exact ⟨img, b, rfl, he, h.symm⟩

/-- C1: when the bytes parse and serialization succeeds, a failure to
decode (or re-encode) a single embedded image leaves the whole
operation successful, that XObject is bit-for-bit unchanged (bytes,
filter, decode parameters, colour space), and it still sits unchanged
in the processed page of the output document. -/
theorem image_failure_c1 (L : Libs) (data : Bytes) (q : Int) (doc : Document)
    (out : Bytes)
    (hparse : L.parse data = .ok doc)
    (hsave : L.save (processDocument L q doc) = .ok out)
    (p : Page) (hpp : p ∈ doc.pages) (k : String) (x : XObject)
    (hx : (k, x) ∈ p.xobjects) (himg : x.subtype = "/Image")
    (hfail : (∀ img, L.decode x.streamData ≠ .ok img)
      ∨ (∃ img, L.decode x.streamData = .ok img
          ∧ ∀ b, L.encode (normalize img) q ≠ .ok b)) :
    (∃ r, compressCore L data q = .ok r ∧ r.payload = out)
    ∧ processXObject L q x = x
    ∧ (k, x) ∈ (processPage L q p).xobjects
    ∧ processPage L q p ∈ (processDocument L q doc).pages := by
  have herr : ∃ e, tryRecodeImage L q x = .error e := by
    rcases hfail with h1 | ⟨img, hd, he⟩
    · cases hd : L.decode x.streamData with
      | error e => exact ⟨e, by unfold tryRecodeImage; simp only [hd]⟩
      | ok img => exact absurd hd (h1 img)
    · cases he2 : L.encode (normalize img) q with
      | error e => exact ⟨e, by unfold tryRecodeImage; simp only [hd, he2]⟩
      | ok b => exact absurd he2 (he b)
  obtain ⟨e0, herr⟩ := herr
  have hxx : processXObject L q x = x := by
    unfold processXObject
    rw [if_pos himg, herr]
  have hcc : compressCore L data q
      = .ok { payload := out
              originalSize := data.length
              newSize := out.length
              savedPercent := savedPercentQ data.length out.length
              headerOriginalSize := toString data.length
              headerNewSize := toString out.length
              headerSavedPercent := renderSaved data.length out.length } := by
    unfold compressCore
    simp only [hparse, hsave]
  refine ⟨⟨_, hcc, rfl⟩, hxx, ?_, ?_⟩
  · show (k, x) ∈ p.xobjects.map fun kv : String × XObject => (kv.1, processXObject L q kv.2)
    exact List.mem_map.mpr ⟨(k, x), hx, by simp [hxx]⟩
  · exact List.mem_map_of_mem (processPage L q) hpp

/-- Witness for C1: concrete libraries whose image decoder always
fails, on the one-image document `wDoc`. -/
theorem image_failure_c1_witness :
    (∃ r, compressCore libsDecodeFail [5] 50 = .ok r ∧ r.payload = [])
    ∧ processXObject libsDecodeFail 50 wImgObj = wImgObj
    ∧ ("Im0", wImgObj) ∈ (processPage libsDecodeFail 50 wPage).xobjects
    ∧ processPage libsDecodeFail 50 wPage ∈ (processDocument libsDecodeFail 50 wDoc).pages :=
  image_failure_c1 libsDecodeFail [5] 50 wDoc [] rfl rfl wPage (by simp [wDoc])
    "Im0" wImgObj (by simp [wPage]) rfl
    (Or.inl fun img h => Except.noConfusion h)

/-- C4: page count and page order are preserved by processing; inside
each page the XObject keys and their order are preserved; a non-image
XObject is untouched; any XObject keeps its subtype and all its other
dictionary entries, so only stream bytes, filter, decode parameters
and colour space can change; the rest of each page is untouched. -/
theorem structure_c4 (L : Libs) (q : Int) (doc : Document) :
    (processDocument L q doc).pages.length = doc.pages.length
    ∧ (∀ i (h : i < doc.pages.length) (h2 : i < (processDocument L q doc).pages.length),
        (processDocument L q doc).pages.get ⟨i, h2⟩
          = processPage L q (doc.pages.get ⟨i, h⟩))
    ∧ (∀ p : Page, (processPage L q p).contents = p.contents
        ∧ (processPage L q p).xobjects.map Prod.fst = p.xobjects.map Prod.fst
        ∧ (processPage L q p).xobjects.length = p.xobjects.length)
    ∧ (∀ p : Page, ∀ i (h : i < p.xobjects.length)
        (h2 : i < (processPage L q p).xobjects.length),
        (processPage L q p).xobjects.get ⟨i, h2⟩
          = ((p.xobjects.get ⟨i, h⟩).1, processXObject L q (p.xobjects.get ⟨i, h⟩).2))
    ∧ (∀ x : XObject, x.subtype ≠ "/Image" → processXObject L q x = x)
    ∧ (∀ x : XObject, (processXObject L q x).subtype = x.subtype
        ∧ (processXObject L q x).otherKeys = x.otherKeys) := by
  refine ⟨?_, ?_, ?_, ?_, ?_, ?_⟩
  · simp [processDocument]
  · intro i h h2
    show (doc.pages.map (processPage L q)).get ⟨i, h2⟩ = _
    simp [List.get_eq_getElem, List.getElem_map]
  · intro p
    refine ⟨rfl, ?_, ?_⟩
    · show (p.xobjects.map fun kv => (kv.1, processXObject L q kv.2)).map Prod.fst
        = p.xobjects.map Prod.fst
      simp [List.map_map, Function.comp]
    · simp [processPage]
  · intro p i h h2
    show (p.xobjects.map fun kv : String × XObject =>
      (kv.1, processXObject L q kv.2)).get ⟨i, h2⟩ = _
    simp [List.get_eq_getElem, List.getElem_map]
  · intro x hs
    unfold processXObject
    rw [if_neg hs]
  · intro x
    unfold processXObject
    by_cases hs : x.subtype = "/Image"
    · rw [if_pos hs]
      cases ht : tryRecodeImage L q x with
      | error e => exact ⟨rfl, rfl⟩
      | ok y =>
        obtain ⟨img, b, hd, he, rfl⟩ := tryRecodeImage_ok_inv L q x y ht
        exact ⟨rfl, rfl⟩
    · rw [if_neg hs]
      exact ⟨rfl, rfl⟩

/-- Witness for C4 at concrete inputs: the page count of the processed
`wDoc` and the untouched non-image XObject `wFormObj`. -/
theorem structure_c4_witness :
    (processDocument libsDecodeFail 50 wDoc).pages.length = wDoc.pages.length
    ∧ processXObject libsDecodeFail 50 wFormObj = wFormObj :=
  ⟨(structure_c4 libsDecodeFail 50 wDoc).1,
   (structure_c4 libsDecodeFail 50 wDoc).2.2.2.2.1 wFormObj (by decide)⟩

/-- A one-pixel black grayscale image: no transparency channel, in an
RGB-compatible mode. -/
def imgL : PILImage := { mode := "L", pixels := [[0]] }

/-- A one-pixel fully transparent RGBA image. -/
def imgA : PILImage := { mode := "RGBA", pixels := [[10, 20, 30, 0]] }

/-- C7 counterexample: the one-pixel black grayscale image has no
transparency channel, yet normalisation does not pass it through as
its RGB conversion — the code pastes it onto a white background using
its own luminance band as the mask, so the black pixel comes out
white. -/
theorem normalizer_c7_counterexample :
    modeHasAlpha imgL.mode = false
    ∧ normalize imgL = { mode := "RGB", pixels := [[255, 255, 255]] }
    ∧ convertRGB imgL = { mode := "RGB", pixels := [[0, 0, 0]] }
    ∧ normalize imgL ≠ convertRGB imgL
    ∧ normalize imgL ≠ imgL := by
  decide

/-- C7 (amended): an RGB image passes through unchanged; every other
image (alpha or not) is pasted onto an opaque white background using
its LAST channel as the mask — the alpha band for RGBA, the luminance
band itself for grayscale — falling back to a direct RGB conversion if
the paste fails; the result is always an RGB image. -/
theorem normalizer_c7_amended (img : PILImage)
    (h : img.mode = "L" ∨ img.mode = "RGB" ∨ img.mode = "RGBA") :
    (normalize img).mode = "RGB"
    ∧ (img.mode = "RGB" → normalize img = img)
    ∧ (img.mode ≠ "RGB" →
        normalize img
          = (pasteMask (whiteRGB img.pixels.length) img
              (band img (bandCount img.mode - 1))).getD (convertRGB img)) := by
  obtain ⟨m, px⟩ := img
  rcases h with h | h | h <;> subst h
  · exact ⟨rfl, fun hc => absurd (show ("L" : String) = "RGB" from hc) (by decide),
      fun hc => rfl⟩
  · exact ⟨rfl, fun hc => rfl, fun hc => absurd rfl hc⟩
  · exact ⟨rfl, fun hc => absurd (show ("RGBA" : String) = "RGB" from hc) (by decide),
      fun hc => rfl⟩

/-- Witness for the amended C7: the transparent RGBA pixel is
composited onto white (correctly, as its last band is the alpha
band). -/
theorem normalizer_c7_amended_witness :
    (normalize imgA).mode = "RGB"
    ∧ normalize imgA
        = (pasteMask (whiteRGB imgA.pixels.length) imgA
            (band imgA (bandCount imgA.mode - 1))).getD (convertRGB imgA) :=
  ⟨(normalizer_c7_amended imgA (Or.inr (Or.inr rfl))).1,
   (normalizer_c7_amended imgA (Or.inr (Or.inr rfl))).2.2 (by decide)⟩

/-- C8: the route is a deterministic pure function of the uploaded
file, the quality and level fields, and the extensional behaviour of
the two external libraries: two invocations with equal inputs against
extensionally equal libraries produce identical results, with no other
dependency (the embedding itself is a total function, so the operation
has no effects beyond its returned value). -/
theorem purity_c8 (L1 L2 : Libs) (file : Option UploadedFile) (qf lf : Option String)
    (hp : ∀ b, L1.parse b = L2.parse b)
    (hd : ∀ b, L1.decode b = L2.decode b)
    (he : ∀ img k, L1.encode img k = L2.encode img k)
    (hs : ∀ d, L1.save d = L2.save d) :
    compressRoute L1 file qf lf = compressRoute L2 file qf lf := by
  have hL : L1 = L2 := by
    obtain ⟨p1, d1, e1, s1⟩ := L1
    obtain ⟨p2, d2, e2, s2⟩ := L2
    simp only [Libs.mk.injEq]
    exact ⟨funext hp, funext hd,
      funext fun img => funext fun k => he img k, funext hs⟩
  rw [hL]

/-- Witness for C8 at concrete equal libraries and a concrete
request. -/
theorem purity_c8_witness :
    compressRoute libsOk (some { filename := "a.pdf", content := [1] }) none none
      = compressRoute libsOk (some { filename := "a.pdf", content := [1] }) none none :=
  purity_c8 libsOk libsOk (some { filename := "a.pdf", content := [1] }) none none
    (fun _ => rfl) (fun _ => rfl) (fun _ _ => rfl) (fun _ => rfl)

/-- Missing file: the route rejects before anything else runs. -/
theorem route_none_file (M : Libs) (qf lf : Option String) :
    compressRoute M none qf lf = .error "No file uploaded" := rfl

/-- Unfolding of the route on a present file. -/
theorem compressRoute_some (M : Libs) (f : UploadedFile) (qf lf : Option String) :
    compressRoute M (some f) qf lf =
      if f.filename = "" then .error "No file uploaded"
      else if !is_pdf f then .error "Only PDF files allowed"
      else if file_too_big f then
        .error ("File must be under " ++ toString MAX_FILE_MB ++ "MB")
      else
        match compressCore M f.content (resolveQuality qf lf) with
        | .error m => .error m
        | .ok r => .ok r := rfl

/-- A file with an empty filename is falsy in Flask and is reported as
missing. -/
theorem route_empty_name (M : Libs) (qf lf : Option String) (f : UploadedFile)
    (h : f.filename = "") :
    compressRoute M (some f) qf lf = .error "No file uploaded" := by
  rw [compressRoute_some, if_pos h]

/-- A present file whose name does not end in `.pdf` is rejected with
the filename error, whatever its content or size. -/
theorem route_not_pdf (M : Libs) (qf lf : Option String) (f : UploadedFile)
    (h1 : f.filename ≠ "") (h2 : is_pdf f = false) :
    compressRoute M (some f) qf lf = .error "Only PDF files allowed" := by
  rw [compressRoute_some, if_neg h1, if_pos (by simp [h2])]

/-- A `.pdf`-named file over 25MB is rejected with the size error. -/
theorem route_too_big (M : Libs) (qf lf : Option String) (f : UploadedFile)
    (h1 : f.filename ≠ "") (h2 : is_pdf f = true) (h3 : file_too_big f = true) :
    compressRoute M (some f) qf lf = .error "File must be under 25MB" := by
  rw [compressRoute_some, if_neg h1, if_neg (by simp [h2]), if_pos h3]
  decide

/-- C9: validation precedes all document processing, in source order —
missing file, then the filename check, then the size check; each
rejection is independent of the libraries (so the bytes are never
parsed), the filename check fires regardless of size, and the file
type check reads only the filename, never the content. -/
theorem validation_c9 (L L2 : Libs) (qf lf : Option String) :
    compressRoute L none qf lf = .error "No file uploaded"
    ∧ (∀ f : UploadedFile, f.filename = "" →
        compressRoute L (some f) qf lf = .error "No file uploaded")
    ∧ (∀ f : UploadedFile, f.filename ≠ "" → is_pdf f = false →
        compressRoute L (some f) qf lf = .error "Only PDF files allowed")
    ∧ (∀ f : UploadedFile, f.filename ≠ "" → is_pdf f = true → file_too_big f = true →
        compressRoute L (some f) qf lf = .error "File must be under 25MB")
    ∧ (∀ f : UploadedFile,
        f.filename = "" ∨ is_pdf f = false ∨ file_too_big f = true →
        compressRoute L (some f) qf lf = compressRoute L2 (some f) qf lf)
    ∧ (∀ f g : UploadedFile, f.filename = g.filename → is_pdf f = is_pdf g) := by
  refine ⟨route_none_file L qf lf, route_empty_name L qf lf, route_not_pdf L qf lf,
    route_too_big L qf lf, ?_, ?_⟩
  · intro f h
    by_cases h1 : f.filename = ""
    · rw [route_empty_name L qf lf f h1, route_empty_name L2 qf lf f h1]
    · rcases h with h | h | h
      · exact absurd h h1
      · rw [route_not_pdf L qf lf f h1 h, route_not_pdf L2 qf lf f h1 h]
      · by_cases h2 : is_pdf f = true
        · rw [route_too_big L qf lf f h1 h2 h, route_too_big L2 qf lf f h1 h2 h]
        · have h2f : is_pdf f = false := by
            cases hb : is_pdf f
            · rfl
            · exact absurd hb h2
          rw [route_not_pdf L qf lf f h1 h2f, route_not_pdf L2 qf lf f h1 h2f]
  · intro f g h
    unfold is_pdf
    rw [h]

/-- Witness for C9 at a concrete non-PDF upload. -/
theorem validation_c9_witness :
    compressRoute libsOk (some { filename := "a.txt", content := [1] }) none none
      = .error "Only PDF files allowed" :=
  (validation_c9 libsOk libsOk none none).2.2.1
    { filename := "a.txt", content := [1] } (by decide) (by decide)

/-- Inversion of a successful route run: validation passed and the
result comes from the document pipeline on the file's bytes at the
resolved quality. -/
theorem compressRoute_ok_inv (L : Libs) (f : UploadedFile) (qf lf : Option String)
    (r : CompressionOk) (h : compressRoute L (some f) qf lf = .ok r) :
    compressCore L f.content (resolveQuality qf lf) = .ok r := by
  rw [compressRoute_some] at h
  by_cases h1 : f.filename = ""
  · rw [if_pos h1] at h
    exact RouteResult.noConfusion h
  · rw [if_neg h1] at h
    by_cases h2 : (!is_pdf f) = true
    · rw [if_pos h2] at h
      exact RouteResult.noConfusion h
    · rw [if_neg h2] at h
      by_cases h3 : file_too_big f = true
      · rw [if_pos h3] at h
        exact RouteResult.noConfusion h
      · rw [if_neg h3] at h
        cases hc : compressCore L f.content (resolveQuality qf lf) with
        | error m =>
          simp only [hc] at h
          exact RouteResult.noConfusion h
        | ok r2 =>
          simp only [hc, RouteResult.ok.injEq] at h
          rw [h]

/-- C10: on every successful response the reported original size is
the uploaded byte count, the reported new size is the byte count of
the returned payload, and the three headers are exactly the decimal
renderings of the three metrics; and nothing forces the new size to be
at most the original size — a successful response with a larger
output exists. -/
theorem response_c10 :
    (∀ (L : Libs) (f : UploadedFile) (qf lf : Option String) (r : CompressionOk),
      compressRoute L (some f) qf lf = .ok r →
      r.originalSize = f.content.length
      ∧ r.newSize = r.payload.length
      ∧ r.savedPercent = savedPercentQ r.originalSize r.newSize
      ∧ r.headerOriginalSize = toString r.originalSize
      ∧ r.headerNewSize = toString r.newSize
      ∧ r.headerSavedPercent = renderSaved r.originalSize r.newSize)
    ∧ (∃ (L : Libs) (f : UploadedFile) (r : CompressionOk),
        compressRoute L (some f) none none = .ok r ∧ r.originalSize < r.newSize) := by
  constructor
  · intro L f qf lf r h
    have hc := compressRoute_ok_inv L f qf lf r h
    obtain ⟨doc, outB, hp, hs, rfl⟩ :=
      compressCore_ok_inv L f.content (resolveQuality qf lf) r hc
    exact ⟨rfl, rfl, rfl, rfl, rfl, rfl⟩
  · exact ⟨libsOk, { filename := "a.pdf", content := [1] }, _, rfl, by decide⟩

/-- Witness for C10: a concrete successful response whose metrics and
headers are checked against the reported sizes. -/
theorem response_c10_witness :
    ∃ r, compressRoute libsOk (some { filename := "a.pdf", content := [1] }) none none
        = .ok r
      ∧ r.originalSize = 1 ∧ r.newSize = r.payload.length := by
  obtain ⟨h1, h2, h3, h4, h5, h6⟩ :=
    response_c10.1 libsOk { filename := "a.pdf", content := [1] } none none _ rfl
  exact ⟨_, rfl, h1, h2⟩

end LoveYourPdf
